import Mathlib

/-!
Verification development for the FocusMind signal-processing core.

Shallow embedding of the Python sources (`FocusScore.py`, `face_track.py`,
`face_focus_tracker.py`, `calibration.py`, `face_tracking_utils.py`) over ℚ:
every Python float is modelled as a rational number, every Python list as a
`List`, dict lookup with a default as an if-chain, and `None` as `Option`.
-/

namespace FocusMind

/-! ## Blink state machine (`face_track.py`, `update_blink_metrics`) -/

/-- Session-scoped blink tracking state threaded through `update_blink_metrics`
(`face_track.py`).  `eyes_closed_start_time` is `None` in Python when the eyes
are not currently closed. -/
structure BlinkState where
  blink_in_progress : Bool
  blink_count : ℕ
  eyes_closed_start_time : Option ℚ
  eyes_closed_duration : ℚ
  deriving Repr, DecidableEq

/-- The zero/empty state created at session start: not in progress, count 0,
no closed-since timestamp, zero duration. -/
def initial_blink_state : BlinkState :=
  { blink_in_progress := false
    blink_count := 0
    eyes_closed_start_time := none
    eyes_closed_duration := 0 }

/-- `update_blink_metrics` from `face_track.py` lines 276-314: blink hysteresis
with close threshold 0.2 and open threshold 0.25.  Returns the updated state
together with the `blink_detected` flag. -/
def update_blink_metrics (eyes_open_ratio current_time : ℚ) (s : BlinkState) :
    BlinkState × Bool :=
  if eyes_open_ratio < 1/5 then
    let start := s.eyes_closed_start_time.getD current_time
    ({ blink_in_progress := true
       blink_count := s.blink_count
       eyes_closed_start_time := some start
       eyes_closed_duration := current_time - start }, false)
  else if eyes_open_ratio > 1/4 then
    ({ blink_in_progress := false
       blink_count := if s.blink_in_progress then s.blink_count + 1 else s.blink_count
       eyes_closed_start_time := none
       eyes_closed_duration := 0 }, s.blink_in_progress)
  else
    ({ s with eyes_closed_duration :=
        match s.eyes_closed_start_time with
        | some t0 => current_time - t0
        | none => s.eyes_closed_duration }, false)

/-- Fold `update_blink_metrics` over a list of `(openness, timestamp)` samples,
keeping the final state and the number of completed-blink signals emitted. -/
def run_blink_events (inputs : List (ℚ × ℚ)) (s : BlinkState) : BlinkState × ℕ :=
  inputs.foldl
    (fun acc p =>
      let r := update_blink_metrics p.1 p.2 acc.1
      (r.1, acc.2 + if r.2 then 1 else 0))
    (s, 0)

/-- Fold `update_blink_metrics` over a list of `(openness, timestamp)` samples,
keeping only the final state (one call per frame, as in the main loops). -/
def run_blink (inputs : List (ℚ × ℚ)) (s : BlinkState) : BlinkState :=
  inputs.foldl (fun st p => (update_blink_metrics p.1 p.2 st).1) s

/-! ## Gaze classification (`face_focus_tracker.py`, `gaze_vector_to_label`) -/

/-- The four calibrated gaze thresholds (`calibration.py` cfg dict:
`left_thresh`, `right_thresh`, `top_thresh`, `down_thresh`). -/
structure CalibrationProfile where
  left_thresh : ℚ
  right_thresh : ℚ
  top_thresh : ℚ
  down_thresh : ℚ
  deriving Repr, DecidableEq

/-- `FaceFocusTracker.gaze_vector_to_label` from `face_focus_tracker.py`
lines 169-184, for a present calibration profile: the smoothed vector
`(dx, dy)` is tested against the four thresholds in order and the first
matching rule wins. -/
def gaze_vector_to_label (cfg : CalibrationProfile) (dx dy : ℚ) : String :=
  if dx < cfg.left_thresh then "Right"
  else if dx > cfg.right_thresh then "Left"
  else if dy < cfg.top_thresh then "Down"
  else if dy > cfg.down_thresh then "Up"
  else "Center"

/-! ## Focus score fusion engine (`FocusScore.py`, `compute_focus_score`) -/

/-- The categorical gaze lookup `gaze_map.get(gaze_direction, 0.8)` from
`FocusScore.py` line 62-63: dict with keys `"forward"`, `"down"`, `"up"`,
`"left"`, `"right"` and default 0.8. -/
def gaze_map (gaze_direction : String) : ℚ :=
  if gaze_direction = "forward" then 1
  else if gaze_direction = "down" then 9/10
  else if gaze_direction = "up" then 9/10
  else if gaze_direction = "left" then 4/5
  else if gaze_direction = "right" then 4/5
  else 4/5

/-- Face sub-score (`FocusScore.py` line 54). -/
def face_score (face_present : Bool) : ℚ :=
  if face_present then 1 else 0

/-- Eye sub-score (`FocusScore.py` lines 57-59): clamp openness to [0,1],
then a floor-capped penalty when the eyes have been closed for over 3 s. -/
def eye_score (eyes_open_ratio eyes_closed_duration : ℚ) : ℚ :=
  let e := max 0 (min 1 eyes_open_ratio)
  if eyes_closed_duration > 3 then max (3/5) (e - 1/5) else e

/-- Gaze sub-score (`FocusScore.py` lines 62-66): categorical base value times
`(1 - min(0.25, max(0, gaze_away_ratio)))`. -/
def gaze_score (gaze_direction : String) (gaze_away_ratio : ℚ) : ℚ :=
  let gaze_away_penalty := max 0 (min (1/4) gaze_away_ratio)
  gaze_map gaze_direction * (1 - gaze_away_penalty)

/-- Head sub-score (`FocusScore.py` lines 69-73): yaw tolerance 120° with max
50% penalty, a pitch penalty below −45°, and a final clamp into [0.6, 1]. -/
def head_score (head_pitch head_yaw : ℚ) : ℚ :=
  let h := 1 - min (|head_yaw| / 120) (1/2)
  let h := if head_pitch < -45 then max (3/5) (h - 3/20) else h
  max (3/5) (min 1 h)

/-- Blink sub-score (`FocusScore.py` lines 76-77). -/
def blink_score (blink_rate : ℚ) : ℚ :=
  max (7/10) (1 - min (|blink_rate - 20| / 80) (3/10))

/-- Typing sub-score (`FocusScore.py` lines 80-83).  `keys_per_30s` is the
keystroke count over the trailing 30 s window (a `len(...)` in
`keyboard_activity.py`), hence a natural number. -/
def typing_score (keys_per_30s : ℕ) (typing_active : Bool) : ℚ :=
  if typing_active then min ((keys_per_30s : ℚ) / 15) 1 else 3/5

/-- The weighted sum scaled to [0,100] (`FocusScore.py` lines 46-51, 85-95):
weights face 0.25, gaze 0.25, eyes 0.20, head 0.15, blink 0.08, typing 0.07. -/
def raw_score (face_present : Bool) (eyes_open_ratio eyes_closed_duration : ℚ)
    (gaze_direction : String) (gaze_away_ratio head_pitch head_yaw blink_rate : ℚ)
    (keys_per_30s : ℕ) (typing_active : Bool) : ℚ :=
  (1/4 * face_score face_present
    + 1/4 * gaze_score gaze_direction gaze_away_ratio
    + 1/5 * eye_score eyes_open_ratio eyes_closed_duration
    + 3/20 * head_score head_pitch head_yaw
    + 2/25 * blink_score blink_rate
    + 7/100 * typing_score keys_per_30s typing_active) * 100

/-- Asymmetric exponential smoothing (`FocusScore.py` lines 97-103): blend
rate 0.2 when the raw score exceeds the previous score, 0.15 otherwise. -/
def smooth_step (raw prev_score : ℚ) : ℚ :=
  let alpha : ℚ := if raw > prev_score then 1/5 else 3/20
  (1 - alpha) * prev_score + alpha * raw

/-- Sustained-excellence bonus (`FocusScore.py` lines 106-107). -/
def bonus_step (focus_score prev_score : ℚ) : ℚ :=
  if focus_score > 85 ∧ prev_score > 80 then min 100 (focus_score + 1/2)
  else focus_score

/-- Python `round(x, 2)`: round to the nearest multiple of 1/100 with ties
going to the even multiple (banker's rounding). -/
def pyRound2 (x : ℚ) : ℚ :=
  let y := x * 100
  let f : ℤ := Int.floor y
  let frac := y - (f : ℚ)
  let r : ℤ :=
    if frac < 1/2 then f
    else if 1/2 < frac then f + 1
    else if f % 2 = 0 then f else f + 1
  (r : ℚ) / 100

/-- `compute_focus_score` from `FocusScore.py` lines 27-116: weighted fusion,
asymmetric smoothing, sustained bonus, clamp into [0,100], round to 2 dp.
`focus_trend` is accepted and ignored exactly as in the source. -/
def compute_focus_score (face_present : Bool) (eyes_open_ratio eyes_closed_duration : ℚ)
    (gaze_direction : String) (gaze_away_ratio head_pitch head_yaw blink_rate : ℚ)
    (keys_per_30s : ℕ) (typing_active : Bool) (focus_trend prev_score : ℚ) : ℚ :=
  pyRound2 (max 0 (min 100
    (bonus_step
      (smooth_step
        (raw_score face_present eyes_open_ratio eyes_closed_duration gaze_direction
          gaze_away_ratio head_pitch head_yaw blink_rate keys_per_30s typing_active)
        prev_score)
      prev_score)))

/-! ## Calibration threshold derivation (`calibration.py`, `calibrate_user`) -/

/-- numpy `isclose` at its default tolerances (`rtol=1e-5`, `atol=1e-8`):
`|a - b| ≤ atol + rtol * |b|`. -/
def np_isclose (a b : ℚ) : Prop :=
  |a - b| ≤ 1/100000000 + (1/100000) * |b|

instance (a b : ℚ) : Decidable (np_isclose a b) := by
  unfold np_isclose; infer_instance

/-- The threshold-derivation step of `calibrate_user` (`calibration.py` lines
119-143) for a completed five-pose run whose per-pose medians are
`h_center, h_left_s, h_right_s, h_up_s, h_down_s` (horizontal components of
the center/left/right/up/down poses) and likewise `v_*` for the vertical
components.  Mirrors the source slices: `h_left = min(horiz_vals[1:])`,
`h_right = max(horiz_vals[2:])`, `v_up = min(vert_vals[3:])`,
`v_down = max(vert_vals[4:])`, the `np.isclose` degenerate guard, and the
half-span margins around the center-pose medians. -/
def derive_thresholds (h_center h_left_s h_right_s h_up_s h_down_s
    v_center v_left_s v_right_s v_up_s v_down_s : ℚ) : CalibrationProfile :=
  let h_left := min h_left_s (min h_right_s (min h_up_s h_down_s))
  let h_right := max h_right_s (max h_up_s h_down_s)
  let v_up := min v_up_s v_down_s
  let v_down := v_down_s
  let vertical_height := (v_up + v_down) / 2
  let v_up2 := if np_isclose v_up v_down then max 0 (vertical_height - 1/20) else v_up
  let v_down2 := if np_isclose v_up v_down then min 1 (vertical_height + 1/20) else v_down
  let horiz_margin := (1/2) * (h_right - h_left)
  let vert_margin := (1/2) * (v_down2 - v_up2)
  { left_thresh := h_center - horiz_margin
    right_thresh := h_center + horiz_margin
    top_thresh := v_center - vert_margin
    down_thresh := v_center + vert_margin }

/-! ## Gaze-ratio computation (`face_track.py`, `compute_gaze_ratios`)

A landmark frame is modelled as a function from the landmark index to its
2D pixel position (the source indexes a fixed-size array `pts`). -/

/-- `LEFT_IRIS_INDICES` (`face_track.py` line 12). -/
def LEFT_IRIS_INDICES : List ℕ := [468, 469, 470, 471, 472]

/-- `RIGHT_IRIS_INDICES` (`face_track.py` line 13). -/
def RIGHT_IRIS_INDICES : List ℕ := [473, 474, 475, 476, 477]

/-- `compute_iris_center` (`face_track.py` lines 63-65): mean of the supplied
landmark positions. -/
def compute_iris_center (pts : ℕ → ℚ × ℚ) (indices : List ℕ) : ℚ × ℚ :=
  ((indices.map fun i => (pts i).1).sum / (indices.length : ℚ),
   (indices.map fun i => (pts i).2).sum / (indices.length : ℚ))

/-- Left eye-box width: `sorted((left_outer[0], left_inner[0]))` over landmarks
33 and 133, max minus min (`face_track.py` lines 85-87). -/
def left_eye_width (pts : ℕ → ℚ × ℚ) : ℚ :=
  max (pts 33).1 (pts 133).1 - min (pts 33).1 (pts 133).1

/-- Right eye-box width over landmarks 362 and 263 (`face_track.py` lines 86-88). -/
def right_eye_width (pts : ℕ → ℚ × ℚ) : ℚ :=
  max (pts 362).1 (pts 263).1 - min (pts 362).1 (pts 263).1

/-- Left eye-box height over landmarks 159 and 145 (`face_track.py` lines 90-92). -/
def left_eye_height (pts : ℕ → ℚ × ℚ) : ℚ :=
  max (pts 159).2 (pts 145).2 - min (pts 159).2 (pts 145).2

/-- Right eye-box height over landmarks 386 and 374 (`face_track.py` lines 91-93). -/
def right_eye_height (pts : ℕ → ℚ × ℚ) : ℚ :=
  max (pts 386).2 (pts 374).2 - min (pts 386).2 (pts 374).2

/-- `compute_gaze_ratios` (`face_track.py` lines 68-109): bail out with
`(None, None)` when any eye-box extent is ≤ 1e-6, otherwise interpolate each
iris centre inside its eye box, average the eyes, and clip into [0, 1]
(`np.clip(x, 0, 1) = min(max(x, 0), 1)`). -/
def compute_gaze_ratios (pts : ℕ → ℚ × ℚ) : Option (ℚ × ℚ) :=
  if min (min (left_eye_width pts) (right_eye_width pts))
      (min (left_eye_height pts) (right_eye_height pts)) ≤ 1/1000000 then
    none
  else
    let left_iris := compute_iris_center pts LEFT_IRIS_INDICES
    let right_iris := compute_iris_center pts RIGHT_IRIS_INDICES
    let left_horizontal := (left_iris.1 - min (pts 33).1 (pts 133).1) / left_eye_width pts
    let right_horizontal := (right_iris.1 - min (pts 362).1 (pts 263).1) / right_eye_width pts
    let left_vertical := (left_iris.2 - min (pts 159).2 (pts 145).2) / left_eye_height pts
    let right_vertical := (right_iris.2 - min (pts 386).2 (pts 374).2) / right_eye_height pts
    some (min (max ((left_horizontal + right_horizontal) / 2) 0) 1,
          min (max ((left_vertical + right_vertical) / 2) 0) 1)

/-! ## Head-orientation angle wrapping (`face_track.py`, `estimate_head_orientation`) -/

/-- The wrapping step applied to pitch and to yaw in `estimate_head_orientation`
(`face_track.py` lines 174-184): subtract 180 above +90, add 180 below −90. -/
def wrap_angle (angle : ℚ) : ℚ :=
  if angle > 90 then angle - 180
  else if angle < -90 then angle + 180
  else angle

/-! ## Session aggregator (`FocusScore.py`, `generate_session_stats`) -/

/-- Successive differences: `succ_diffs s₀ [s₁, s₂, …] = [s₁−s₀, s₂−s₁, …]`. -/
def succ_diffs (prev : ℚ) : List ℚ → List ℚ
  | [] => []
  | x :: xs => (x - prev) :: succ_diffs x xs

/-- `np.diff(scores, prepend=scores[0])` (`FocusScore.py` line 308): the
successive differences with a leading 0 (the first entry minus itself). -/
def deltas : List ℚ → List ℚ
  | [] => []
  | s :: rest => 0 :: succ_diffs s rest

/-- `count_recoveries` (`FocusScore.py` lines 312-322): for each index
`i ∈ [0, len−1)` with `arr[i] ≤ −threshold`, scan `j ∈ [i+1, len)` and count
once if some `arr[j] ≥ threshold` is found (the Python inner loop `break`s at
the first such `j`, so one hit per qualifying `i`). -/
def count_recoveries (arr : List ℚ) (threshold : ℚ) : ℕ :=
  (List.range (arr.length - 1)).countP fun i =>
    decide (arr.getD i 0 ≤ -threshold) &&
      (List.range' (i+1) (arr.length - (i+1))).any fun j =>
        decide (threshold ≤ arr.getD j 0)

/-- The `recovery_moments_est` field of `generate_session_stats` (`FocusScore.py`
line 341): `count_recoveries` on the delta sequence with threshold 8. -/
def recovery_moments_est (scores : List ℚ) : ℕ :=
  count_recoveries (deltas scores) 8

/-- Spec-side recovery count, following the claim's words: the number of
positions `i` in the delta sequence such that `delta[i] ≤ −8` and some later
position `j > i` has `delta[j] ≥ +8`. -/
def spec_recovery_count (ds : List ℚ) : ℕ :=
  (List.range ds.length).countP fun i =>
    decide (ds.getD i 0 ≤ -8) &&
      (List.range ds.length).any fun j =>
        decide (i < j) && decide (8 ≤ ds.getD j 0)

/-! ## Theorems -/

/-- **C4** Gaze direction classification tests the smoothed vector against the
CalibrationProfile's four thresholds in the fixed priority order
horizontal-left, horizontal-right, vertical-top, vertical-bottom, else
Center, first match winning: every vector satisfying both the
horizontal-left rule and a vertical rule gets the horizontal-left rule's
label (which is `"Right"` in the source). -/
theorem gaze_left_priority (cfg : CalibrationProfile) (dx dy : ℚ)
    (hleft : dx < cfg.left_thresh)
    (hvert : dy < cfg.top_thresh ∨ cfg.down_thresh < dy) :
    gaze_vector_to_label cfg dx dy = "Right" := by
  unfold gaze_vector_to_label
  rw [if_pos hleft]

/-- Witness for `gaze_left_priority` at the spec's thresholds
`left=-0.1, right=0.1, top=-0.1, down=0.1` and vector `(-0.2, -0.2)`,
which satisfies both the horizontal-left and the vertical-top rule. -/
theorem gaze_left_priority_witness :
    ((-1/5 : ℚ) < -1/10 ∧ ((-1/5 : ℚ) < -1/10 ∨ (1/10 : ℚ) < -1/5)) ∧
    gaze_vector_to_label ⟨-1/10, 1/10, -1/10, 1/10⟩ (-1/5) (-1/5) = "Right" :=
  ⟨⟨by norm_num, Or.inl (by norm_num)⟩,
    gaze_left_priority ⟨-1/10, 1/10, -1/10, 1/10⟩ (-1/5) (-1/5) (by norm_num)
      (Or.inl (by norm_num))⟩

/-- **C5** Every gaze label the tracking pipeline can emit — `"Center"`,
`"Left"`, `"Right"`, `"Up"`, `"Down"` from `gaze_vector_to_label`, and
`"Away"` from the no-face branch of `process_frame` — misses every key of
the lowercase lookup table `gaze_map`, so the categorical gaze base value in
`compute_focus_score` is always the default 0.8 on pipeline labels. -/
theorem gaze_map_constant_on_pipeline_labels :
    gaze_map "Center" = 4/5 ∧ gaze_map "Left" = 4/5 ∧ gaze_map "Right" = 4/5 ∧
    gaze_map "Up" = 4/5 ∧ gaze_map "Down" = 4/5 ∧ gaze_map "Away" = 4/5 ∧
    ∀ (cfg : CalibrationProfile) (dx dy : ℚ),
      gaze_map (gaze_vector_to_label cfg dx dy) = 4/5 := by
  refine ⟨by simp [gaze_map], by simp [gaze_map], by simp [gaze_map],
    by simp [gaze_map], by simp [gaze_map], by simp [gaze_map], ?_⟩
  intro cfg dx dy
  unfold gaze_vector_to_label
  split_ifs <;> simp [gaze_map]

/-- **C10 counterexample** The raw Euler angle −90° lies in (−180°, 180°],
the wrap step leaves it unchanged at −90°, and −90° is not in the claimed
half-open interval (−90°, 90°]. -/
theorem wrap_angle_claim_cex :
    ((-180 : ℚ) < -90 ∧ (-90 : ℚ) ≤ 180) ∧ wrap_angle (-90) = -90 ∧
    ¬((-90 : ℚ) < wrap_angle (-90) ∧ wrap_angle (-90) ≤ 90) := by
  norm_num [wrap_angle]

/-- **C10 amended** For every raw Euler angle in (−180°, 180°], the wrapping
step of `estimate_head_orientation` yields an angle in the closed interval
[−90°, 90°]. -/
theorem wrap_angle_mem_Icc (a : ℚ) (h1 : -180 < a) (h2 : a ≤ 180) :
    -90 ≤ wrap_angle a ∧ wrap_angle a ≤ 90 := by
  unfold wrap_angle
  split_ifs <;> constructor <;> linarith

/-- Witness for `wrap_angle_mem_Icc` at the raw angle 135°. -/
theorem wrap_angle_mem_Icc_witness :
    ((-180 : ℚ) < 135 ∧ (135 : ℚ) ≤ 180) ∧
    -90 ≤ wrap_angle 135 ∧ wrap_angle 135 ≤ 90 :=
  ⟨⟨by norm_num, by norm_num⟩, wrap_angle_mem_Icc 135 (by norm_num) (by norm_num)⟩

/-- **C6 counterexample** A run whose up-pose and down-pose vertical medians
are both 0 while the center-pose vertical median is 1/2: the produced band is
`top_thresh = 19/40`, `down_thresh = 21/40`, which differ by 1/20 (not 1/10,
because the ±0.05 split clamps at 0) and are centered on 1/2 (the center-pose
median), not on the common up/down value 0. -/
theorem calibration_guard_cex :
    ¬((derive_thresholds 0 0 0 0 0 (1/2) 0 0 0 0).down_thresh
        - (derive_thresholds 0 0 0 0 0 (1/2) 0 0 0 0).top_thresh = 1/10 ∧
      ((derive_thresholds 0 0 0 0 0 (1/2) 0 0 0 0).top_thresh
        + (derive_thresholds 0 0 0 0 0 (1/2) 0 0 0 0).down_thresh) / 2 = 0) := by
  norm_num [derive_thresholds, np_isclose]

/-- **C6 amended** After a calibration run in which the up-pose and down-pose
vertical medians are equal to a common value `v` with `0.05 ≤ v ≤ 0.95` (so
the ±0.05 split does not clamp at 0 or 1), the produced `top_thresh` and
`down_thresh` differ by exactly 0.10 and are centered on the center-pose
vertical median, not on `v`. -/
theorem calibration_guard_amended (hc hl hr hu hd vc vl vr v : ℚ)
    (hv1 : 1/20 ≤ v) (hv2 : v ≤ 19/20) :
    (derive_thresholds hc hl hr hu hd vc vl vr v v).down_thresh
      - (derive_thresholds hc hl hr hu hd vc vl vr v v).top_thresh = 1/10 ∧
    ((derive_thresholds hc hl hr hu hd vc vl vr v v).top_thresh
      + (derive_thresholds hc hl hr hu hd vc vl vr v v).down_thresh) / 2 = vc := by
  have hclose : np_isclose v v := by
    unfold np_isclose
    rw [sub_self, abs_zero]
    positivity
  simp only [derive_thresholds, min_self]
  rw [if_pos hclose, if_pos hclose,
    max_eq_right (by linarith : (0:ℚ) ≤ (v + v) / 2 - 1/20),
    min_eq_right (by linarith : (v + v) / 2 + 1/20 ≤ 1)]
  constructor <;> ring

/-- Witness for `calibration_guard_amended` with common up/down value 1/2 and
center-pose vertical median 1/4. -/
theorem calibration_guard_amended_witness :
    ((1/20 : ℚ) ≤ 1/2 ∧ (1/2 : ℚ) ≤ 19/20) ∧
    (derive_thresholds 0 0 0 0 0 (1/4) 0 0 (1/2) (1/2)).down_thresh
      - (derive_thresholds 0 0 0 0 0 (1/4) 0 0 (1/2) (1/2)).top_thresh = 1/10 ∧
    ((derive_thresholds 0 0 0 0 0 (1/4) 0 0 (1/2) (1/2)).top_thresh
      + (derive_thresholds 0 0 0 0 0 (1/4) 0 0 (1/2) (1/2)).down_thresh) / 2 = 1/4 :=
  ⟨⟨by norm_num, by norm_num⟩,
    calibration_guard_amended 0 0 0 0 0 (1/4) 0 0 (1/2) (by norm_num) (by norm_num)⟩

/-- **C3** Blink hysteresis on synthetic openness sequences, from the initial
blink state at strictly increasing timestamps: `[0.5, 0.1, 0.1, 0.1, 0.5]`
yields exactly one completed-blink signal and a final count of 1;
`[0.5, 0.22, 0.5]` (dipping only into the dead zone) yields zero signals and
count 0; and an openness value strictly between 0.20 and 0.25 never changes
the in-progress flag or the blink count, in any state. -/
theorem blink_hysteresis_sequences (t1 t2 t3 t4 t5 u1 u2 u3 x tm : ℚ)
    (s : BlinkState)
    (h12 : t1 < t2) (h23 : t2 < t3) (h34 : t3 < t4) (h45 : t4 < t5)
    (hu12 : u1 < u2) (hu23 : u2 < u3) (hx1 : 1/5 < x) (hx2 : x < 1/4) :
    (run_blink_events [(1/2, t1), (1/10, t2), (1/10, t3), (1/10, t4), (1/2, t5)]
        initial_blink_state).2 = 1 ∧
    (run_blink_events [(1/2, t1), (1/10, t2), (1/10, t3), (1/10, t4), (1/2, t5)]
        initial_blink_state).1.blink_count = 1 ∧
    (run_blink_events [(1/2, u1), (11/50, u2), (1/2, u3)] initial_blink_state).2 = 0 ∧
    (run_blink_events [(1/2, u1), (11/50, u2), (1/2, u3)]
        initial_blink_state).1.blink_count = 0 ∧
    (update_blink_metrics x tm s).1.blink_in_progress = s.blink_in_progress ∧
    (update_blink_metrics x tm s).1.blink_count = s.blink_count := by
  refine ⟨?_, ?_, ?_, ?_, ?_, ?_⟩ <;>
    first
    | · norm_num [run_blink_events, update_blink_metrics, initial_blink_state,
        List.foldl]
    | · unfold update_blink_metrics
        rw [if_neg (by linarith : ¬ x < 1/5), if_neg (by linarith : ¬ x > 1/4)]

/-- Witness for `blink_hysteresis_sequences` at timestamps `0,1,2,3,4` and
`0,1,2`, dead-zone openness `11/50 = 0.22`, on the initial state. -/
theorem blink_hysteresis_sequences_witness :
    ((0:ℚ) < 1 ∧ (1:ℚ) < 2 ∧ (2:ℚ) < 3 ∧ (3:ℚ) < 4 ∧
      (1:ℚ)/5 < 11/50 ∧ (11:ℚ)/50 < 1/4) ∧
    (run_blink_events [(1/2, 0), (1/10, 1), (1/10, 2), (1/10, 3), (1/2, 4)]
        initial_blink_state).2 = 1 ∧
    (run_blink_events [(1/2, 0), (1/10, 1), (1/10, 2), (1/10, 3), (1/2, 4)]
        initial_blink_state).1.blink_count = 1 ∧
    (run_blink_events [(1/2, 0), (11/50, 1), (1/2, 2)] initial_blink_state).2 = 0 ∧
    (run_blink_events [(1/2, 0), (11/50, 1), (1/2, 2)]
        initial_blink_state).1.blink_count = 0 ∧
    (update_blink_metrics (11/50) 0 initial_blink_state).1.blink_in_progress
      = initial_blink_state.blink_in_progress ∧
    (update_blink_metrics (11/50) 0 initial_blink_state).1.blink_count
      = initial_blink_state.blink_count :=
  ⟨⟨by norm_num, by norm_num, by norm_num, by norm_num, by norm_num, by norm_num⟩,
    blink_hysteresis_sequences 0 1 2 3 4 0 1 2 (11/50) 0 initial_blink_state
      (by norm_num) (by norm_num) (by norm_num) (by norm_num)
      (by norm_num) (by norm_num) (by norm_num) (by norm_num)⟩

/-- The inductive invariant of the blink state machine: the closed-since
timestamp is unset exactly in the "open" phase, where the duration is 0 and
no blink is in progress; whenever it is set, a blink is in progress. -/
def blink_ok (s : BlinkState) : Prop :=
  match s.eyes_closed_start_time with
  | none => s.eyes_closed_duration = 0 ∧ s.blink_in_progress = false
  | some _ => s.blink_in_progress = true

theorem blink_ok_initial : blink_ok initial_blink_state := by
  unfold blink_ok initial_blink_state
  exact ⟨rfl, rfl⟩

theorem blink_ok_step (e t : ℚ) (s : BlinkState) (h : blink_ok s) :
    blink_ok (update_blink_metrics e t s).1 := by
  rcases s with ⟨bip, bc, start, dur⟩
  unfold update_blink_metrics
  split_ifs <;> cases start <;> simp_all [blink_ok, Option.getD]

theorem blink_ok_run (inputs : List (ℚ × ℚ)) (s : BlinkState) (h : blink_ok s) :
    blink_ok (run_blink inputs s) := by
  induction inputs generalizing s with
  | nil => exact h
  | cons p rest ih => exact ih _ (blink_ok_step p.1 p.2 s h)

/-- **C8** The blink-state invariant — `closed_duration > 0` implies
`in_progress = true` and the closed-since timestamp is set — holds after
every call to `update_blink_metrics`, for every openness value and
non-decreasing timestamp sequence, starting from the initial state. -/
theorem blink_invariant_holds (inputs : List (ℚ × ℚ))
    (hts : List.Chain' (· ≤ ·) (inputs.map Prod.snd)) :
    (run_blink inputs initial_blink_state).eyes_closed_duration > 0 →
      (run_blink inputs initial_blink_state).blink_in_progress = true ∧
      (run_blink inputs initial_blink_state).eyes_closed_start_time.isSome = true := by
  intro hdur
  have hok := blink_ok_run inputs initial_blink_state blink_ok_initial
  unfold blink_ok at hok
  rcases hfin : (run_blink inputs initial_blink_state).eyes_closed_start_time with
    _ | t0
  · rw [hfin] at hok
    exact absurd hok.1 (by linarith)
  · rw [hfin] at hok
    exact ⟨hok, rfl⟩

/-- Witness for `blink_invariant_holds` on the sample sequence
`[(0.5, 0), (0.1, 1), (0.22, 2)]`, whose timestamps are non-decreasing. -/
theorem blink_invariant_holds_witness :
    List.Chain' (· ≤ ·)
      (([(1/2, 0), (1/10, 1), (11/50, 2)] : List (ℚ × ℚ)).map Prod.snd) ∧
    ((run_blink [(1/2, 0), (1/10, 1), (11/50, 2)]
        initial_blink_state).eyes_closed_duration > 0 →
      (run_blink [(1/2, 0), (1/10, 1), (11/50, 2)]
        initial_blink_state).blink_in_progress = true ∧
      (run_blink [(1/2, 0), (1/10, 1), (11/50, 2)]
        initial_blink_state).eyes_closed_start_time.isSome = true) :=
  ⟨by norm_num [List.chain'_cons],
    blink_invariant_holds [(1/2, 0), (1/10, 1), (11/50, 2)]
      (by norm_num [List.chain'_cons])⟩

/-! ### Sub-score bounds for the fusion engine -/

theorem face_score_mem (fp : Bool) : 0 ≤ face_score fp ∧ face_score fp ≤ 1 := by
  unfold face_score
  split_ifs <;> norm_num

theorem eye_score_mem (a b : ℚ) : 0 ≤ eye_score a b ∧ eye_score a b ≤ 1 := by
  unfold eye_score
  have h1 : (0:ℚ) ≤ max 0 (min 1 a) := le_max_left 0 _
  have h2 : max 0 (min 1 a) ≤ 1 := max_le (by norm_num) (min_le_left 1 a)
  split_ifs
  · exact ⟨le_trans (by norm_num) (le_max_left (3/5) _),
      max_le (by norm_num) (by linarith)⟩
  · exact ⟨h1, h2⟩

theorem gaze_map_mem (d : String) : 4/5 ≤ gaze_map d ∧ gaze_map d ≤ 1 := by
  unfold gaze_map
  split_ifs <;> norm_num

theorem gaze_score_mem (d : String) (r : ℚ) :
    0 ≤ gaze_score d r ∧ gaze_score d r ≤ 1 := by
  unfold gaze_score
  obtain ⟨hg1, hg2⟩ := gaze_map_mem d
  have hq1 : (0:ℚ) ≤ max 0 (min (1/4) r) := le_max_left 0 _
  have hq2 : max 0 (min (1/4) r) ≤ 1/4 := max_le (by norm_num) (min_le_left _ r)
  constructor
  · exact mul_nonneg (by linarith) (by linarith)
  · nlinarith

theorem head_score_mem (p y : ℚ) : 0 ≤ head_score p y ∧ head_score p y ≤ 1 := by
  unfold head_score
  exact ⟨le_trans (by norm_num) (le_max_left (3/5) _),
    max_le (by norm_num) (min_le_left 1 _)⟩

theorem blink_score_mem (br : ℚ) : 0 ≤ blink_score br ∧ blink_score br ≤ 1 := by
  unfold blink_score
  have hq : (0:ℚ) ≤ min (|br - 20| / 80) (3/10) :=
    le_min (by positivity) (by norm_num)
  exact ⟨le_trans (by norm_num) (le_max_left (7/10) _),
    max_le (by norm_num) (by linarith)⟩

theorem typing_score_mem (k : ℕ) (ta : Bool) :
    0 ≤ typing_score k ta ∧ typing_score k ta ≤ 1 := by
  unfold typing_score
  split_ifs
  · exact ⟨le_min (by positivity) (by norm_num), min_le_right _ 1⟩
  · norm_num

theorem raw_score_mem (fp : Bool) (eor ecd : ℚ) (gd : String)
    (gar hp hy br : ℚ) (k : ℕ) (ta : Bool) :
    0 ≤ raw_score fp eor ecd gd gar hp hy br k ta ∧
    raw_score fp eor ecd gd gar hp hy br k ta ≤ 100 := by
  unfold raw_score
  obtain ⟨f1, f2⟩ := face_score_mem fp
  obtain ⟨g1, g2⟩ := gaze_score_mem gd gar
  obtain ⟨e1, e2⟩ := eye_score_mem eor ecd
  obtain ⟨h1, h2⟩ := head_score_mem hp hy
  obtain ⟨b1, b2⟩ := blink_score_mem br
  obtain ⟨t1, t2⟩ := typing_score_mem k ta
  constructor <;> nlinarith

theorem pyRound2_mem (x : ℚ) (h0 : 0 ≤ x) (h1 : x ≤ 100) :
    0 ≤ pyRound2 x ∧ pyRound2 x ≤ 100 := by
  have hf0 : (0 : ℤ) ≤ Int.floor (x * 100) := by
    rw [Int.le_floor]
    push_cast
    nlinarith
  have hfle : (Int.floor (x * 100) : ℚ) ≤ x * 100 := Int.floor_le _
  have hx100 : x * 100 ≤ 10000 := by nlinarith
  have hcast0 : (0 : ℚ) ≤ (Int.floor (x * 100) : ℚ) := by exact_mod_cast hf0
  dsimp only [pyRound2]
  split_ifs with hfrac1 hfrac2 heven
  · constructor
    · positivity
    · rw [div_le_iff₀ (by norm_num : (0:ℚ) < 100)]
      linarith
  · have hint : Int.floor (x * 100) < 10000 := by
      have : (Int.floor (x * 100) : ℚ) < 10000 := by linarith
      exact_mod_cast this
    constructor
    · have : (0:ℚ) ≤ ((Int.floor (x * 100) + 1 : ℤ) : ℚ) := by push_cast; linarith
      positivity
    · rw [div_le_iff₀ (by norm_num : (0:ℚ) < 100)]
      push_cast
      have h9999 : Int.floor (x * 100) ≤ 9999 := by omega
      have : (Int.floor (x * 100) : ℚ) ≤ 9999 := by exact_mod_cast h9999
      linarith
  · constructor
    · positivity
    · rw [div_le_iff₀ (by norm_num : (0:ℚ) < 100)]
      linarith
  · have hge : (1:ℚ)/2 ≤ x * 100 - (Int.floor (x * 100) : ℚ) := not_lt.mp hfrac1
    have hint : Int.floor (x * 100) < 10000 := by
      have : (Int.floor (x * 100) : ℚ) < 10000 := by linarith
      exact_mod_cast this
    constructor
    · have : (0:ℚ) ≤ ((Int.floor (x * 100) + 1 : ℤ) : ℚ) := by push_cast; linarith
      positivity
    · rw [div_le_iff₀ (by norm_num : (0:ℚ) < 100)]
      push_cast
      have h9999 : Int.floor (x * 100) ≤ 9999 := by omega
      have : (Int.floor (x * 100) : ℚ) ≤ 9999 := by exact_mod_cast h9999
      linarith

/-- **C1** For every input to `compute_focus_score` — any face-presence flag,
eye openness, closed-eye duration, gaze label, gaze-away ratio, head pitch,
head yaw, blink rate, key count, typing flag, focus trend and previous
score — the returned focus score lies in [0, 100]. -/
theorem focus_score_bounded (fp : Bool) (eor ecd : ℚ) (gd : String)
    (gar hp hy br : ℚ) (k : ℕ) (ta : Bool) (ft prev : ℚ) :
    0 ≤ compute_focus_score fp eor ecd gd gar hp hy br k ta ft prev ∧
    compute_focus_score fp eor ecd gd gar hp hy br k ta ft prev ≤ 100 := by
  unfold compute_focus_score
  exact pyRound2_mem _ (le_max_left 0 _) (max_le (by norm_num) (min_le_left 100 _))

/-- **C2** In every call to `compute_focus_score` with `prev_score ∈ [0,100]`,
the smoothed value before the sustained-excellence bonus contracts towards
the raw score: `|new − prev| ≤ |raw − prev|`, with blend rate 0.20 when
`raw > prev` and 0.15 otherwise, so the pre-bonus change is at most 20
points when improving and at most 15 points when declining. -/
theorem smoothing_rate_bound (fp : Bool) (eor ecd : ℚ) (gd : String)
    (gar hp hy br : ℚ) (k : ℕ) (ta : Bool) (raw prev : ℚ)
    (hraw : raw = raw_score fp eor ecd gd gar hp hy br k ta)
    (hprev0 : 0 ≤ prev) (hprev1 : prev ≤ 100) :
    |smooth_step raw prev - prev| ≤ |raw - prev| ∧
    (raw > prev → smooth_step raw prev - prev = 1/5 * (raw - prev) ∧
      |smooth_step raw prev - prev| ≤ 20) ∧
    (raw ≤ prev → smooth_step raw prev - prev = 3/20 * (raw - prev) ∧
      |smooth_step raw prev - prev| ≤ 15) := by
  have hmem := raw_score_mem fp eor ecd gd gar hp hy br k ta
  rw [← hraw] at hmem
  obtain ⟨hr0, hr1⟩ := hmem
  by_cases hc : raw > prev
  · have heq : smooth_step raw prev - prev = 1/5 * (raw - prev) := by
      unfold smooth_step
      rw [if_pos hc]
      ring
    have habs : |smooth_step raw prev - prev| = 1/5 * (raw - prev) := by
      rw [heq]
      exact abs_of_nonneg (by linarith)
    refine ⟨?_, fun _ => ⟨heq, ?_⟩, fun hle => absurd hc (not_lt.mpr hle)⟩
    · rw [habs, abs_of_nonneg (by linarith : (0:ℚ) ≤ raw - prev)]
      linarith
    · rw [habs]
      linarith
  · push_neg at hc
    have heq : smooth_step raw prev - prev = 3/20 * (raw - prev) := by
      unfold smooth_step
      rw [if_neg (not_lt.mpr hc)]
      ring
    have habs : |smooth_step raw prev - prev| = 3/20 * (prev - raw) := by
      rw [heq, abs_of_nonpos (by linarith)]
      ring
    refine ⟨?_, fun hgt => absurd hgt (not_lt.mpr hc), fun _ => ⟨heq, ?_⟩⟩
    · rw [habs, abs_of_nonpos (sub_nonpos.mpr hc)]
      linarith
    · rw [habs]
      linarith

/-- Witness for `smoothing_rate_bound` with the features
`(false, 0, 0, "Away", 0, 0, 0, 0, 0, false)` and previous score 0. -/
theorem smoothing_rate_bound_witness :
    ((0:ℚ) ≤ 0 ∧ (0:ℚ) ≤ 100) ∧
    |smooth_step (raw_score false 0 0 "Away" 0 0 0 0 0 false) 0 - 0|
      ≤ |raw_score false 0 0 "Away" 0 0 0 0 0 false - 0| ∧
    (raw_score false 0 0 "Away" 0 0 0 0 0 false > 0 →
      smooth_step (raw_score false 0 0 "Away" 0 0 0 0 0 false) 0 - 0
        = 1/5 * (raw_score false 0 0 "Away" 0 0 0 0 0 false - 0) ∧
      |smooth_step (raw_score false 0 0 "Away" 0 0 0 0 0 false) 0 - 0| ≤ 20) ∧
    (raw_score false 0 0 "Away" 0 0 0 0 0 false ≤ 0 →
      smooth_step (raw_score false 0 0 "Away" 0 0 0 0 0 false) 0 - 0
        = 3/20 * (raw_score false 0 0 "Away" 0 0 0 0 0 false - 0) ∧
      |smooth_step (raw_score false 0 0 "Away" 0 0 0 0 0 false) 0 - 0| ≤ 15) :=
  ⟨⟨le_refl 0, by norm_num⟩,
    smoothing_rate_bound false 0 0 "Away" 0 0 0 0 0 false
      (raw_score false 0 0 "Away" 0 0 0 0 0 false) 0 rfl (le_refl 0) (by norm_num)⟩

/-- **C7** For every landmark frame in which any eye-box extent (width or
height, either eye) is ≤ the 1e-6 epsilon, `compute_gaze_ratios` returns the
no-sample sentinel (`none`, the embedding of Python's `(None, None)`); for
every other frame it returns both ratios, each clamped into [0, 1]. -/
theorem gaze_ratios_guard_and_clamp (pts : ℕ → ℚ × ℚ) :
    ((left_eye_width pts ≤ 1/1000000 ∨ right_eye_width pts ≤ 1/1000000 ∨
      left_eye_height pts ≤ 1/1000000 ∨ right_eye_height pts ≤ 1/1000000) →
      compute_gaze_ratios pts = none) ∧
    (1/1000000 < left_eye_width pts → 1/1000000 < right_eye_width pts →
      1/1000000 < left_eye_height pts → 1/1000000 < right_eye_height pts →
      ∃ hr vr, compute_gaze_ratios pts = some (hr, vr) ∧
        0 ≤ hr ∧ hr ≤ 1 ∧ 0 ≤ vr ∧ vr ≤ 1) := by
  constructor
  · intro h
    unfold compute_gaze_ratios
    rw [if_pos]
    rcases h with h | h | h | h
    · exact le_trans (le_trans (min_le_left _ _) (min_le_left _ _)) h
    · exact le_trans (le_trans (min_le_left _ _) (min_le_right _ _)) h
    · exact le_trans (le_trans (min_le_right _ _) (min_le_left _ _)) h
    · exact le_trans (le_trans (min_le_right _ _) (min_le_right _ _)) h
  · intro h1 h2 h3 h4
    unfold compute_gaze_ratios
    rw [if_neg (not_le.mpr (lt_min (lt_min h1 h2) (lt_min h3 h4)))]
    refine ⟨_, _, rfl, ?_, ?_, ?_, ?_⟩
    · exact le_min (le_max_right _ 0) zero_le_one
    · exact min_le_right _ 1
    · exact le_min (le_max_right _ 0) zero_le_one
    · exact min_le_right _ 1

/-- Witness for `gaze_ratios_guard_and_clamp`: the all-zero frame (every
extent 0) hits the degenerate branch; the frame placing landmark `i` at
`(i, i)` has all four extents ≥ 12 and yields clamped ratios. -/
theorem gaze_ratios_guard_and_clamp_witness :
    (left_eye_width (fun _ => (0, 0)) ≤ 1/1000000 ∨
      right_eye_width (fun _ => (0, 0)) ≤ 1/1000000 ∨
      left_eye_height (fun _ => (0, 0)) ≤ 1/1000000 ∨
      right_eye_height (fun _ => (0, 0)) ≤ 1/1000000) ∧
    compute_gaze_ratios (fun _ => (0, 0)) = none ∧
    ((1:ℚ)/1000000 < left_eye_width (fun i => ((i : ℚ), (i : ℚ))) ∧
      (1:ℚ)/1000000 < right_eye_width (fun i => ((i : ℚ), (i : ℚ))) ∧
      (1:ℚ)/1000000 < left_eye_height (fun i => ((i : ℚ), (i : ℚ))) ∧
      (1:ℚ)/1000000 < right_eye_height (fun i => ((i : ℚ), (i : ℚ)))) ∧
    ∃ hr vr, compute_gaze_ratios (fun i => ((i : ℚ), (i : ℚ))) = some (hr, vr) ∧
      0 ≤ hr ∧ hr ≤ 1 ∧ 0 ≤ vr ∧ vr ≤ 1 :=
  ⟨Or.inl (by norm_num [left_eye_width]),
    (gaze_ratios_guard_and_clamp (fun _ => (0, 0))).1
      (Or.inl (by norm_num [left_eye_width])),
    ⟨by norm_num [left_eye_width, max_def, min_def],
      by norm_num [right_eye_width, max_def, min_def],
      by norm_num [left_eye_height, max_def, min_def],
      by norm_num [right_eye_height, max_def, min_def]⟩,
    (gaze_ratios_guard_and_clamp (fun i => ((i : ℚ), (i : ℚ)))).2
      (by norm_num [left_eye_width, max_def, min_def])
      (by norm_num [right_eye_width, max_def, min_def])
      (by norm_num [left_eye_height, max_def, min_def])
      (by norm_num [right_eye_height, max_def, min_def])⟩

/-! ### Recovery-count characterization -/

theorem inner_any_eq (arr : List ℚ) (θ : ℚ) (i : ℕ) (hi : i < arr.length) :
    ((List.range' (i+1) (arr.length - (i+1))).any fun j =>
        decide (θ ≤ arr.getD j 0))
    = ((List.range arr.length).any fun j =>
        decide (i < j) && decide (θ ≤ arr.getD j 0)) := by
  rw [Bool.eq_iff_iff]
  simp only [List.any_eq_true, List.mem_range'_1, List.mem_range,
    Bool.and_eq_true, decide_eq_true_eq]
  constructor
  · rintro ⟨j, ⟨hj1, hj2⟩, hθ⟩
    exact ⟨j, by omega, by omega, hθ⟩
  · rintro ⟨j, hj, hij, hθ⟩
    exact ⟨j, ⟨by omega, by omega⟩, hθ⟩

theorem countP_range_succ_eq (n : ℕ) (p : ℕ → Bool) (h : p n = false) :
    (List.range (n+1)).countP p = (List.range n).countP p := by
  rw [List.range_succ, List.countP_append]
  simp [List.countP_cons, h]

theorem count_recoveries_eq_spec (arr : List ℚ) :
    count_recoveries arr 8 = spec_recovery_count arr := by
  unfold count_recoveries spec_recovery_count
  rcases Nat.eq_zero_or_pos arr.length with h0 | hpos
  · simp [h0]
  obtain ⟨m, hm⟩ : ∃ m, arr.length = m + 1 := ⟨arr.length - 1, by omega⟩
  rw [hm, Nat.add_sub_cancel]
  have hany : ((List.range (m+1)).any fun j =>
      decide (m < j) && decide ((8:ℚ) ≤ arr.getD j 0)) = false := by
    rw [List.any_eq_false]
    intro j hj
    rw [List.mem_range] at hj
    have hnot : ¬ (m < j) := by omega
    simp [hnot]
  rw [countP_range_succ_eq m _
    (show (decide (arr.getD m 0 ≤ -8) && (List.range (m+1)).any fun j =>
        decide (m < j) && decide ((8:ℚ) ≤ arr.getD j 0)) = false by
      rw [hany, Bool.and_false])]
  apply List.countP_congr
  intro i hi
  rw [List.mem_range] at hi
  have hinner := inner_any_eq arr 8 i (by omega : i < arr.length)
  rw [hm] at hinner
  simp only [hinner]

/-- **C9** For every session score sequence, the recovery count reported by
`generate_session_stats` equals the number of positions `i` of the delta
sequence (successive differences with a leading 0 prepended) such that
`delta[i] ≤ −8` and some later position `j > i` has `delta[j] ≥ +8` — so a
single large gain can be counted against several earlier drops. -/
theorem recovery_count_characterization (scores : List ℚ) :
    recovery_moments_est scores = spec_recovery_count (deltas scores) := by
  unfold recovery_moments_est
  exact count_recoveries_eq_spec (deltas scores)

end FocusMind
